import Mathlib

/-!
Verification of the `sendnotification` repository (Python, one module).

The module `sendnotification.py` is shallowly embedded below.  Pure data
transformations become Lean functions; the effects of the program (logging,
Redis get/set/expire, the HTTP POST to pushover, the SMTP send) are made
explicit: every operation returns the new store state, the list of log
entries it emitted, the list of external events it performed, and its
result (`Except PyErr α` models Python exceptions: a `.error` is a raised
exception, `.ok` a normal return).
-/

namespace SendNotification

/-- A log entry: the logging level together with the format template and its
arguments exactly as the source passes them to `logging.debug` /
`logging.error` (calls that pass a preformatted message have no args). -/
inductive LogEntry where
  | debug (template : String) (args : List String)
  | error (template : String) (args : List String)
deriving Repr, DecidableEq

/-- Python exceptions raised by the module: `SendNotificationError` raised via
`SendNotification.error`, a `KeyError` from a dict lookup, a `TypeError` from
keyword-argument expansion, and exceptions raised by external libraries
(smtplib). -/
inductive PyErr where
  | snError (msg : String)
  | keyError (key : String)
  | typeError
  | libError (msg : String)
deriving Repr, DecidableEq

/-- External events performed by the module, in order: Redis store accesses,
the HTTP POST of the pushover adapter, and the SMTP send of the email
adapter. -/
inductive Ev where
  | redisGet (key : String)
  | redisSet (key : String) (value : Nat)
  | redisExpire (key : String) (seconds : Nat)
  | httpPost (url : String) (payload : List (String × String))
  | smtpSend (sender : Option String) (recipient : String)
      (subject : String) (body : String)
deriving Repr, DecidableEq

/-- The Redis store state: the keys currently present with their values, and
the expiry (in seconds) attached to each key by `EXPIRE`. -/
structure Store where
  val : List (String × Nat)
  ttl : List (String × Nat)
deriving Repr, DecidableEq

/-- The external environment an invocation of `send` runs against: the
response the pushover HTTP endpoint returns (status code, body text), and
whether the smtplib call raises (`some msg`) or succeeds (`none`). -/
structure Env where
  pushoverResp : Nat × String
  smtpExc : Option String
deriving Repr, DecidableEq

deriving instance DecidableEq for Except

/-- Result of one method call: updated store, emitted log, external events,
and the Python-level result (normal return or raised exception). -/
structure Outcome where
  store : Store
  log : List LogEntry
  events : List Ev
  result : Except PyErr Bool
deriving Repr, DecidableEq

/-! ### SHA-1 (hashlib.sha1) over byte lists, words as `Nat` modulo `2^32` -/

/-- `2^32`, the word modulus of SHA-1. -/
def M32 : Nat := 4294967296

/-- Rotate a 32-bit word (a `Nat < 2^32`) left by `n` bits. -/
def rotl (n x : Nat) : Nat :=
  (((x % M32) <<< n) % M32) ||| ((x % M32) >>> (32 - n))

/-- Big-endian bytes of `n`, `k` bytes long. -/
def beBytes : Nat → Nat → List Nat
  | 0, _ => []
  | k + 1, n => beBytes k (n / 256) ++ [n % 256]

/-- SHA-1 padding: append `0x80`, zeros to 56 mod 64, then the 64-bit
big-endian bit length. -/
def padBytes (msg : List Nat) : List Nat :=
  let len := msg.length
  let padZeros := (64 - ((len + 9) % 64)) % 64
  msg ++ [128] ++ List.replicate padZeros 0 ++ beBytes 8 (8 * len)

/-- Group four big-endian bytes into one 32-bit word. -/
def toWords : List Nat → List Nat
  | b0 :: b1 :: b2 :: b3 :: rest =>
      (((b0 * 256 + b1) * 256 + b2) * 256 + b3) :: toWords rest
  | _ => []

/-- Split a byte list into 64-byte chunks. -/
def chunk64 (l : List Nat) : List (List Nat) :=
  if h : l = [] then []
  else
    l.take 64 :: chunk64 (l.drop 64)
termination_by l.length
decreasing_by
  simp only [List.length_drop]
  exact Nat.sub_lt (List.length_pos.mpr h) (by decide)

/-- Extend sixteen 32-bit message words to the eighty words of one SHA-1
block schedule. -/
def sha1Extend (ws : Array Nat) : Array Nat :=
  (List.range 64).foldl
    (fun a i =>
      a.push (rotl 1
        ((a.getD (i + 13) 0) ^^^ (a.getD (i + 8) 0) ^^^
         (a.getD (i + 2) 0) ^^^ (a.getD i 0))))
    ws

/-- The five-word SHA-1 state. -/
structure H5 where
  a : Nat
  b : Nat
  c : Nat
  d : Nat
  e : Nat
deriving Repr, DecidableEq

/-- The SHA-1 round function for round `t`. -/
def sha1F (t b c d : Nat) : Nat :=
  if t < 20 then (b &&& c) ||| ((b ^^^ 4294967295) &&& d)
  else if t < 40 then b ^^^ c ^^^ d
  else if t < 60 then (b &&& c) ||| (b &&& d) ||| (c &&& d)
  else b ^^^ c ^^^ d

/-- The SHA-1 round constant for round `t`. -/
def sha1K (t : Nat) : Nat :=
  if t < 20 then 1518500249
  else if t < 40 then 1859775393
  else if t < 60 then 2400959708
  else 3395469782

/-- One SHA-1 compression round on the five-word state. -/
def sha1Round (h : H5) (tw : Nat × Nat) : H5 :=
  let temp := (rotl 5 h.a + sha1F tw.1 h.b h.c h.d + h.e + sha1K tw.1 + tw.2) % M32
  ⟨temp, h.a, rotl 30 h.b, h.c, h.d⟩

/-- Process one 64-byte block: run the eighty rounds and add the result to
the incoming state, word-wise modulo `2^32`. -/
def sha1Block (h : H5) (block : List Nat) : H5 :=
  let ws := sha1Extend (toWords block).toArray
  let r := ((List.range 80).zip ws.toList).foldl sha1Round h
  ⟨(h.a + r.a) % M32, (h.b + r.b) % M32, (h.c + r.c) % M32,
   (h.d + r.d) % M32, (h.e + r.e) % M32⟩

/-- The SHA-1 initialization vector. -/
def sha1Init : H5 := ⟨1732584193, 4023233417, 2562383102, 271733878, 3285377520⟩

/-- SHA-1 of a byte list. -/
def sha1Nat (msg : List Nat) : H5 :=
  (chunk64 (padBytes msg)).foldl sha1Block sha1Init

/-- Lower-case hex digit for `n < 16`. -/
def hexDigit (n : Nat) : Char :=
  if n < 10 then Char.ofNat (48 + n) else Char.ofNat (87 + n)

/-- Fixed-width hex rendering of one 32-bit word: exactly eight digits. -/
def toHex8 (n : Nat) : String :=
  String.mk ((List.range 8).map (fun i => hexDigit ((n >>> (4 * (7 - i))) % 16)))

/-- `hexdigest()` of a SHA-1 state: forty lower-case hex characters. -/
def hexdigest (h : H5) : String :=
  toHex8 h.a ++ toHex8 h.b ++ toHex8 h.c ++ toHex8 h.d ++ toHex8 h.e

/-- UTF-8 bytes of a string (`str.encode("utf-8")`). -/
def strBytes (s : String) : List Nat :=
  s.toUTF8.toList.map (fun b => b.toNat)

/-- `sha1(s.encode("utf-8")).hexdigest()`. -/
def sha1hex (s : String) : String := hexdigest (sha1Nat (strBytes s))

/-! ### Python dicts as insertion-ordered association lists -/

/-- `d[k] = v` on a Python dict: update in place when the key exists,
append otherwise (insertion order preserved). -/
def dictSet (l : List (String × String)) (k v : String) : List (String × String) :=
  if (l.lookup k).isSome then
    l.map (fun kv => if kv.1 = k then (k, v) else kv)
  else l ++ [(k, v)]

/-- `del d[k]` on a Python dict. -/
def dictDel (l : List (String × String)) (k : String) : List (String × String) :=
  l.filter (fun kv => kv.1 ≠ k)

/-- Truthiness of an optional string argument (`if title:` in Python):
false for `None` and for the empty string. -/
def truthy : Option String → Bool
  | none => false
  | some s => s ≠ ""

/-- Truthiness of the optional `interval` argument (`if interval:`):
false for `None` and for `0`. -/
def truthyNat : Option Nat → Bool
  | none => false
  | some n => n ≠ 0

/-! ### The interval guard (`SendNotification.check_interval`) -/

/-- `os.path.splitext(os.path.basename(__file__))[0]`: the module name used
both as default config-file suffix and as the Redis key namespace tag. -/
def programName : String := "sendnotification"

/-- The Redis dedupe key of `check_interval`: the module name, a colon, and
the SHA-1 hex digest of the concatenation of the service name, `str(interval)`
and every value of the notification dict, in order. -/
def intervalKey (service : String) (interval : Nat)
    (notification : List (String × String)) : String :=
  programName ++ ":" ++
    sha1hex (String.join ([service, toString interval] ++ notification.map Prod.snd))

/-- Result of `check_interval`: new store, log, Redis events, and the
returned boolean (`true` = notification allowed). -/
structure GuardOut where
  store : Store
  log : List LogEntry
  events : List Ev
  allowed : Bool
deriving Repr, DecidableEq

/-- `SendNotification.check_interval`: if the dedupe key is present in Redis
return `false`; otherwise set it to `1`, set its expiry to `interval`
seconds, and return `true`. -/
def check_interval (store : Store) (service : String) (interval : Nat)
    (notification : List (String × String)) : GuardOut :=
  let key := intervalKey service interval notification
  if (store.val.lookup key).isSome then
    ⟨store,
     [.debug "Notification not sent. Interval has not passed since last notification" []],
     [.redisGet key], false⟩
  else
    ⟨⟨(if (store.val.lookup key).isSome then
          store.val.map (fun kv => if kv.1 = key then (key, 1) else kv)
        else store.val ++ [(key, 1)]),
      (if (store.ttl.lookup key).isSome then
          store.ttl.map (fun kv => if kv.1 = key then (key, interval) else kv)
        else store.ttl ++ [(key, interval)])⟩,
     [.debug "Notification interval set to %s sec" [toString interval]],
     [.redisGet key, .redisSet key 1, .redisExpire key interval], true⟩

/-! ### Service adapters -/

/-- The fixed pushover endpoint. -/
def pushoverUrl : String := "https://api.pushover.net/1/messages.json"

/-- Tail of `send_pushover` after the interval guard: rewrite
`app_token`/`api_key` into `token`/`user`, POST, and fail with the response
body on a non-200 status. -/
def pushoverPost (env : Env) (store : Store) (lg : List LogEntry) (evs : List Ev)
    (notification : List (String × String)) (app_token api_key : String) : Outcome :=
  let ntf := dictDel (dictDel (dictSet (dictSet notification "token" app_token)
      "user" api_key) "app_token") "api_key"
  let code := env.pushoverResp.1
  let text := env.pushoverResp.2
  let evs := evs ++ [.httpPost pushoverUrl ntf]
  if code ≠ 200 then
    ⟨store, lg ++ [.error text []], evs, .error (.snError text)⟩
  else
    ⟨store, lg ++ [.debug "Pushover notification sent" []], evs, .ok true⟩

/-- `SendNotification.send_pushover`: build the notification dict, run the
interval guard when `interval` is truthy (returning `False` without posting
when suppressed), then POST to pushover. -/
def send_pushover (env : Env) (store : Store) (app_token api_key message : String)
    (interval : Option Nat) (title : Option String) : Outcome :=
  let notification :=
    if truthy title then
      [("app_token", app_token), ("api_key", api_key), ("message", message),
       ("title", title.getD "")]
    else
      [("app_token", app_token), ("api_key", api_key), ("message", message)]
  let dbg : List LogEntry := [.debug "Pushover sending notification %s" [toString notification]]
  if truthyNat interval then
    let g := check_interval store "pushover" (interval.getD 0) notification
    if g.allowed then
      pushoverPost env g.store (dbg ++ g.log) g.events notification app_token api_key
    else
      ⟨g.store, dbg ++ g.log, g.events, .ok false⟩
  else
    pushoverPost env store dbg [] notification app_token api_key

/-- Tail of `send_email` after the interval guard: build the MIME message and
submit it via the localhost SMTP relay; an smtplib exception propagates. -/
def emailSmtp (env : Env) (store : Store) (lg : List LogEntry) (evs : List Ev)
    (subject recipient message : String) (sender : Option String) : Outcome :=
  match env.smtpExc with
  | some exc => ⟨store, lg, evs, .error (.libError exc)⟩
  | none =>
      ⟨store, lg ++ [.debug "Email notification sent" []],
       evs ++ [.smtpSend sender recipient subject message], .ok true⟩

/-- `SendNotification.send_email`: build the notification dict, run the
interval guard when `interval` is truthy (returning `False` without sending
when suppressed), then send via SMTP. -/
def send_email (env : Env) (store : Store) (subject recipient message : String)
    (interval : Option Nat) (sender : Option String) : Outcome :=
  let notification :=
    if truthy sender then
      [("subject", subject), ("to", recipient), ("message", message),
       ("sender", sender.getD "")]
    else
      [("subject", subject), ("to", recipient), ("message", message)]
  let dbg : List LogEntry := [.debug "Email sending notification %s" [toString notification]]
  if truthyNat interval then
    let g := check_interval store "email" (interval.getD 0) notification
    if g.allowed then
      emailSmtp env g.store (dbg ++ g.log) g.events subject recipient message sender
    else
      ⟨g.store, dbg ++ g.log, g.events, .ok false⟩
  else
    emailSmtp env store dbg [] subject recipient message sender

/-! ### Configuration and validation -/

/-- The rewritten configuration dict: the `"services"` entry (absent when the
key was never set) and the per-service settings entries keyed by title. -/
structure Config where
  services : Option (List String)
  settingsMap : List (String × List (String × String))
deriving Repr, DecidableEq

/-- `self.config[service]` for a service title. -/
def lookupSettings (config : Config) (service : String) :
    Option (List (String × String)) :=
  config.settingsMap.lookup service

/-- The supported services tuple `SERVICES`. -/
def SERVICES : List String := ["email", "pushover"]

/-- `self.error(message)`: log the message at error severity, then raise
`SendNotificationError(message)`.  Every caller returns this pair. -/
def errRes (msg : String) : List LogEntry × Except PyErr Unit :=
  ([.error msg []], .error (.snError msg))

/-- The whitespace characters Python's `str.strip()` removes (the ASCII
ones; the module only ever strips ASCII strings). -/
def isSpace (c : Char) : Bool :=
  c = ' ' ∨ c = '\t' ∨ c = '\n' ∨ c = '\r' ∨ c = '\x0b' ∨ c = '\x0c'

/-- Python's `str.strip()`: drop leading and trailing whitespace. -/
def pyStrip (s : String) : String :=
  String.mk (((s.data.dropWhile isSpace).reverse.dropWhile isSpace).reverse)

/-- A required setting is rejected when it is absent from the settings dict
or its value is empty after stripping whitespace. -/
def missingOrBlank (ss : List (String × String)) (k : String) : Bool :=
  match ss.lookup k with
  | none => true
  | some v => pyStrip v = ""

/-- `SendNotification.validate_service_settings`: reject the first required
setting that is missing or blank, then the first settings key outside
required ∪ optional.  The `self.config[service]` dict access raises a
`KeyError` when the title has no settings entry. -/
def validate_service_settings (config : Config) (service : String)
    (required_settings optional_settings : List String) :
    List LogEntry × Except PyErr Unit :=
  match lookupSettings config service with
  | none => ([], .error (.keyError service))
  | some service_settings =>
    let valid_settings := required_settings ++ optional_settings
    match required_settings.find? (fun setting => missingOrBlank service_settings setting) with
    | some setting => errRes ("Missing setting for " ++ service ++ " " ++ setting)
    | none =>
      match (service_settings.map Prod.fst).find?
          (fun setting => ! valid_settings.contains setting) with
      | some setting => errRes ("Unknown setting for " ++ service ++ " " ++ setting)
      | none => ([], .ok ())

/-- The per-service loop body of `validate_config`: unknown titles are
rejected, then each service's settings are validated with its required and
optional keys. -/
def validateServices (config : Config) : List String → List LogEntry × Except PyErr Unit
  | [] => ([], .ok ())
  | service :: rest =>
    if ¬ SERVICES.contains service then
      errRes ("Invalid service " ++ service)
    else
      let r :=
        if service = "pushover" then
          validate_service_settings config service ["app_token", "api_key"] ["title"]
        else
          validate_service_settings config service ["subject", "to"] ["sender"]
      match r with
      | (lg, .error e) => (lg, .error e)
      | (lg, .ok ()) =>
        let r2 := validateServices config rest
        (lg ++ r2.1, r2.2)

/-- `SendNotification.validate_config`: fail when `config.get("services")` is
falsy or the list is empty, then validate each listed service. -/
def validate_config (config : Config) : List LogEntry × Except PyErr Unit :=
  match config.services with
  | none => errRes "Missing services, at least one is needed"
  | some [] => errRes "Missing services, at least one is needed"
  | some (s :: rest) => validateServices config (s :: rest)

/-! ### Reading the config file (`SendNotification.read_config_file`) -/

/-- One element of the `"services"` array of the JSON config file. -/
structure RawService where
  title : String
  settings : List (String × String)
deriving Repr, DecidableEq

/-- The parsed JSON document: its `"services"` key (absent when the JSON has
no such key). -/
structure RawConfig where
  services : Option (List RawService)
deriving Repr, DecidableEq

/-- The three ways reading the config file can go: the file is unreadable
(`IOError`), the JSON is malformed (`ValueError`), or parsing yields a
document. -/
inductive ReadOutcome where
  | ioError
  | parseError
  | parsed (j : RawConfig)
deriving Repr, DecidableEq

/-- `SendNotification.read_config_file`: the two parse-level exceptions are
turned into logged `SendNotificationError`s; a document without a
`"services"` key raises a bare `KeyError` (nothing is logged); otherwise the
services array is rewritten into the title-keyed settings map plus the
ordered list of enabled titles. -/
def read_config_file (config_file : String) :
    ReadOutcome → List LogEntry × Except PyErr Config
  | .ioError =>
      ([.error ("Unable to open JSON config file " ++ config_file) []],
       .error (.snError ("Unable to open JSON config file " ++ config_file)))
  | .parseError =>
      ([.error "Invalid JSON config file" []],
       .error (.snError "Invalid JSON config file"))
  | .parsed j =>
      match j.services with
      | none => ([], .error (.keyError "services"))
      | some svcs =>
          ([], .ok ⟨some (svcs.map (fun s => s.title)),
                    svcs.map (fun s => (s.title, s.settings))⟩)

/-! ### The dispatcher (`SendNotification.send`) -/

/-- `str(e)` for the exceptions the dispatcher can catch and log. -/
def errMsg : PyErr → String
  | .snError m => m
  | .keyError k => "'" ++ k ++ "'"
  | .typeError => "send() keyword argument mismatch"
  | .libError m => m

/-- The error-log template the dispatcher uses for a failed service. -/
def failTemplate (service : String) : String :=
  if service = "pushover" then "Pushover failed: %s" else "Email failed: %s"

/-- Keyword-argument expansion of `self.send_pushover(message=..,
interval=.., **self.config[service])`: a missing settings entry raises
`KeyError`, missing required arguments raise `TypeError`. -/
def callPushover (env : Env) (store : Store)
    (oss : Option (List (String × String))) (message : String)
    (interval : Option Nat) : Outcome :=
  match oss with
  | none => ⟨store, [], [], .error (.keyError "pushover")⟩
  | some ss =>
    match ss.lookup "app_token", ss.lookup "api_key" with
    | some app_token, some api_key =>
        send_pushover env store app_token api_key message interval (ss.lookup "title")
    | _, _ => ⟨store, [], [], .error .typeError⟩

/-- Keyword-argument expansion of `self.send_email(message=.., interval=..,
**self.config[service])`. -/
def callEmail (env : Env) (store : Store)
    (oss : Option (List (String × String))) (message : String)
    (interval : Option Nat) : Outcome :=
  match oss with
  | none => ⟨store, [], [], .error (.keyError "email")⟩
  | some ss =>
    match ss.lookup "subject", ss.lookup "to" with
    | some subject, some recipient =>
        send_email env store subject recipient message interval (ss.lookup "sender")
    | _, _ => ⟨store, [], [], .error .typeError⟩

/-- The branch of the dispatcher loop body that invokes an adapter: `none`
for a service name matching neither `if` branch (no adapter is invoked). -/
def adapterCall (env : Env) (store : Store) (config : Config) (message : String)
    (interval : Option Nat) (service : String) : Option Outcome :=
  if service = "pushover" then
    some (callPushover env store (lookupSettings config "pushover") message interval)
  else if service = "email" then
    some (callEmail env store (lookupSettings config "email") message interval)
  else none

/-- Result of the dispatcher loop: final store, log, events, and the
`send_success` flag. -/
structure LoopOut where
  store : Store
  log : List LogEntry
  events : List Ev
  success : Bool
deriving Repr, DecidableEq

/-- The `for service in self.config["services"]` loop of `send`: log the
attempt, invoke the adapter, stop on normal return, log and continue on any
exception. -/
def sendLoop (env : Env) (config : Config) (message : String)
    (interval : Option Nat) : Store → List String → LoopOut
  | store, [] => ⟨store, [], [], false⟩
  | store, service :: rest =>
    let dbg : List LogEntry := [.debug "Sending with service %s" [service]]
    match adapterCall env store config message interval service with
    | none =>
        let r := sendLoop env config message interval store rest
        ⟨r.store, dbg ++ r.log, r.events, r.success⟩
    | some o =>
        match o.result with
        | .ok _ => ⟨o.store, dbg ++ o.log, o.events, true⟩
        | .error e =>
            let fl : List LogEntry := [.error (failTemplate service) [errMsg e]]
            let r := sendLoop env config message interval o.store rest
            ⟨r.store, dbg ++ o.log ++ fl ++ r.log, o.events ++ r.events, r.success⟩

/-- `SendNotification.send`: validate the configuration, strip the message
and reject an empty one, then run the fallback loop; raise when no service
succeeded, return `True` otherwise. -/
def send (env : Env) (store : Store) (config : Config) (message : String)
    (interval : Option Nat) : Outcome :=
  match validate_config config with
  | (lg, .error e) => ⟨store, lg, [], .error e⟩
  | (lg0, .ok ()) =>
    let m := pyStrip message
    if m = "" then
      ⟨store, lg0 ++ [.error "Message can not be empty" []], [],
       .error (.snError "Message can not be empty")⟩
    else
      let r := sendLoop env config m interval store (config.services.getD [])
      if r.success then
        ⟨r.store, lg0 ++ r.log, r.events, .ok true⟩
      else
        ⟨r.store, lg0 ++ r.log ++ [.error "No notification could be sent" []], r.events,
         .error (.snError "No notification could be sent")⟩

/-- The services the dispatcher reached, read off from the log: the argument
of each `"Sending with service %s"` debug entry, in order. -/
def attemptedServices (log : List LogEntry) : List String :=
  log.filterMap (fun e =>
    match e with
    | .debug t (a :: _) => if t = "Sending with service %s" then some a else none
    | _ => none)

/-! ### Helper lemmas -/

/-- Reading attempts off a concatenated log splits over the parts. -/
theorem attemptedServices_append (l1 l2 : List LogEntry) :
    attemptedServices (l1 ++ l2) = attemptedServices l1 ++ attemptedServices l2 := by
  simp [attemptedServices, List.filterMap_append]

/-- The interval guard never logs a dispatcher attempt entry. -/
theorem attempted_check_interval (store : Store) (service : String) (n : Nat)
    (ntf : List (String × String)) :
    attemptedServices (check_interval store service n ntf).log = [] := by
  by_cases h : (store.val.lookup (intervalKey service n ntf)).isSome <;>
    simp [check_interval, h, attemptedServices]

/-- No log entry is read as an attempt when its template differs from the
dispatcher's. -/
theorem attemptedServices_cons_debug (t : String) (args : List String)
    (l : List LogEntry) (h : t ≠ "Sending with service %s") :
    attemptedServices (.debug t args :: l) = attemptedServices l := by
  cases args <;> simp [attemptedServices, h]

/-- Error-level entries are never read as attempts. -/
theorem attemptedServices_cons_error (t : String) (args : List String)
    (l : List LogEntry) :
    attemptedServices (.error t args :: l) = attemptedServices l := by
  simp [attemptedServices]

/-- The empty log holds no attempts. -/
theorem attemptedServices_nil : attemptedServices [] = [] := rfl

/-- The log written by the tail of the pushover adapter: the incoming log
plus the one entry the response branch emits. -/
theorem pushoverPost_log (env : Env) (store : Store) (lg : List LogEntry)
    (evs : List Ev) (ntf : List (String × String)) (app_token api_key : String) :
    (pushoverPost env store lg evs ntf app_token api_key).log =
      lg ++ [if env.pushoverResp.1 ≠ 200 then LogEntry.error env.pushoverResp.2 []
             else LogEntry.debug "Pushover notification sent" []] := by
  unfold pushoverPost
  by_cases hc : env.pushoverResp.1 ≠ 200 <;> simp [hc]

/-- The tail of the pushover adapter only appends non-attempt entries to its
incoming log. -/
theorem attempted_pushoverPost (env : Env) (store : Store) (lg : List LogEntry)
    (evs : List Ev) (ntf : List (String × String)) (app_token api_key : String)
    (h : attemptedServices lg = []) :
    attemptedServices (pushoverPost env store lg evs ntf app_token api_key).log = [] := by
  rw [pushoverPost_log, attemptedServices_append, h]
  by_cases hc : env.pushoverResp.1 ≠ 200 <;> simp [hc, attemptedServices]

/-- The pushover adapter never logs a dispatcher attempt entry. -/
theorem attempted_send_pushover (env : Env) (store : Store)
    (app_token api_key message : String) (interval : Option Nat)
    (title : Option String) :
    attemptedServices (send_pushover env store app_token api_key message interval title).log
      = [] := by
  unfold send_pushover
  by_cases ht : truthy title <;> by_cases hi : truthyNat interval <;>
    simp only [ht, hi, Bool.false_eq_true, reduceIte] <;>
    first
      | (apply attempted_pushoverPost
         simp [attemptedServices_cons_debug, attemptedServices_nil])
      | (rw [apply_ite Outcome.log, apply_ite attemptedServices]
         split <;>
           first
             | (apply attempted_pushoverPost
                simp [attemptedServices_append, attempted_check_interval,
                  attemptedServices_cons_debug, attemptedServices_nil])
             | simp [attemptedServices_append, attempted_check_interval,
                 attemptedServices_cons_debug, attemptedServices_nil])

/-- The log written by the tail of the email adapter: unchanged when smtplib
raises, one debug entry appended otherwise. -/
theorem emailSmtp_log (env : Env) (store : Store) (lg : List LogEntry)
    (evs : List Ev) (subject recipient message : String) (sender : Option String) :
    (emailSmtp env store lg evs subject recipient message sender).log =
      (match env.smtpExc with
       | some _ => lg
       | none => lg ++ [LogEntry.debug "Email notification sent" []]) := by
  unfold emailSmtp
  cases env.smtpExc <;> simp

/-- The tail of the email adapter only appends non-attempt entries to its
incoming log. -/
theorem attempted_emailSmtp (env : Env) (store : Store) (lg : List LogEntry)
    (evs : List Ev) (subject recipient message : String) (sender : Option String)
    (h : attemptedServices lg = []) :
    attemptedServices
      (emailSmtp env store lg evs subject recipient message sender).log = [] := by
  rw [emailSmtp_log]
  cases env.smtpExc
  · rw [attemptedServices_append, h]; simp [attemptedServices]
  · exact h

/-- The email adapter never logs a dispatcher attempt entry. -/
theorem attempted_send_email (env : Env) (store : Store)
    (subject recipient message : String) (interval : Option Nat)
    (sender : Option String) :
    attemptedServices (send_email env store subject recipient message interval sender).log
      = [] := by
  unfold send_email
  by_cases ht : truthy sender <;> by_cases hi : truthyNat interval <;>
    simp only [ht, hi, Bool.false_eq_true, reduceIte] <;>
    first
      | (apply attempted_emailSmtp
         simp [attemptedServices_cons_debug, attemptedServices_nil])
      | (rw [apply_ite Outcome.log, apply_ite attemptedServices]
         split <;>
           first
             | (apply attempted_emailSmtp
                simp [attemptedServices_append, attempted_check_interval,
                  attemptedServices_cons_debug, attemptedServices_nil])
             | simp [attemptedServices_append, attempted_check_interval,
                 attemptedServices_cons_debug, attemptedServices_nil])

/-- The pushover branch of the dispatcher body never logs an attempt entry. -/
theorem attempted_callPushover (env : Env) (store : Store)
    (oss : Option (List (String × String))) (message : String)
    (interval : Option Nat) :
    attemptedServices (callPushover env store oss message interval).log = [] := by
  unfold callPushover
  cases oss with
  | none => rfl
  | some ss =>
      cases h1 : List.lookup "app_token" ss <;> cases h2 : List.lookup "api_key" ss <;>
        simp [h1, h2, attempted_send_pushover, attemptedServices_nil]

/-- The email branch of the dispatcher body never logs an attempt entry. -/
theorem attempted_callEmail (env : Env) (store : Store)
    (oss : Option (List (String × String))) (message : String)
    (interval : Option Nat) :
    attemptedServices (callEmail env store oss message interval).log = [] := by
  unfold callEmail
  cases oss with
  | none => rfl
  | some ss =>
      cases h1 : List.lookup "subject" ss <;> cases h2 : List.lookup "to" ss <;>
        simp [h1, h2, attempted_send_email, attemptedServices_nil]

/-- Exhaustive case analysis of `validate_service_settings`: a missing
settings entry raises `KeyError`; otherwise the first missing-or-blank
required key, or else the first unknown key, is rejected with a logged
`SendNotificationError`; otherwise it returns normally with no log. -/
theorem vss_cases (config : Config) (service : String) (req opt : List String) :
    (lookupSettings config service = none ∧
      validate_service_settings config service req opt =
        ([], .error (.keyError service)))
    ∨ (∃ ss k, lookupSettings config service = some ss ∧
        List.find? (fun x => missingOrBlank ss x) req = some k ∧
        validate_service_settings config service req opt =
          ([.error ("Missing setting for " ++ service ++ " " ++ k) []],
           .error (.snError ("Missing setting for " ++ service ++ " " ++ k))))
    ∨ (∃ ss k, lookupSettings config service = some ss ∧
        List.find? (fun x => missingOrBlank ss x) req = none ∧
        List.find? (fun x => ! (req ++ opt).contains x) (ss.map Prod.fst) = some k ∧
        validate_service_settings config service req opt =
          ([.error ("Unknown setting for " ++ service ++ " " ++ k) []],
           .error (.snError ("Unknown setting for " ++ service ++ " " ++ k))))
    ∨ (∃ ss, lookupSettings config service = some ss ∧
        validate_service_settings config service req opt = ([], .ok ())) := by
  cases hs : lookupSettings config service with
  | none =>
      exact Or.inl ⟨rfl, by simp only [validate_service_settings, hs]⟩
  | some ss =>
      cases hr : List.find? (fun x => missingOrBlank ss x) req with
      | some k =>
          exact Or.inr (Or.inl ⟨ss, k, rfl, hr,
            by simp only [validate_service_settings, hs, hr, errRes]⟩)
      | none =>
          cases hu : List.find? (fun x => ! (req ++ opt).contains x)
              (ss.map Prod.fst) with
          | some k =>
              exact Or.inr (Or.inr (Or.inl ⟨ss, k, rfl, hr, hu,
                by simp only [validate_service_settings, hs, hr, hu, errRes]⟩))
          | none =>
              exact Or.inr (Or.inr (Or.inr ⟨ss, rfl,
                by simp only [validate_service_settings, hs, hr, hu]⟩))

/-- The settings validation invoked by the validator loop for one service. -/
def vssFor (config : Config) (service : String) : List LogEntry × Except PyErr Unit :=
  if service = "pushover" then
    validate_service_settings config service ["app_token", "api_key"] ["title"]
  else
    validate_service_settings config service ["subject", "to"] ["sender"]

/-- Unfolding of the validator loop at a cons cell. -/
theorem validateServices_cons (config : Config) (s : String) (rest : List String) :
    validateServices config (s :: rest) =
      if ¬ SERVICES.contains s then errRes ("Invalid service " ++ s)
      else
        match vssFor config s with
        | (lg, .error e) => (lg, .error e)
        | (lg, .ok ()) =>
            (lg ++ (validateServices config rest).1, (validateServices config rest).2) := by
  rfl

/-- The services loop of the validator only returns normally with an empty
log. -/
theorem validateServices_ok_log (config : Config) :
    ∀ svcs, (validateServices config svcs).2 = .ok () →
      (validateServices config svcs).1 = [] := by
  intro svcs
  induction svcs with
  | nil => intro _; rfl
  | cons s rest ih =>
      intro h
      rw [validateServices_cons] at h ⊢
      by_cases hc : SERVICES.contains s
      · simp only [hc, not_true_eq_false, reduceIte] at h ⊢
        obtain ⟨lg, r, hv⟩ : ∃ lg r, vssFor config s = (lg, r) := ⟨_, _, rfl⟩
        rw [hv] at h ⊢
        cases r with
        | error e => exact Except.noConfusion h
        | ok u =>
            cases u
            have hlg : lg = [] := by
              unfold vssFor at hv
              by_cases hp : s = "pushover" <;> simp only [hp, reduceIte] at hv
              · rcases vss_cases config s ["app_token", "api_key"] ["title"] with
                  ⟨_, he⟩ | ⟨ss, k, _, _, he⟩ | ⟨ss, k, _, _, _, he⟩ | ⟨ss, _, he⟩ <;>
                  subst hp <;> rw [he] at hv <;> cases hv <;> rfl
              · rcases vss_cases config s ["subject", "to"] ["sender"] with
                  ⟨_, he⟩ | ⟨ss, k, _, _, he⟩ | ⟨ss, k, _, _, _, he⟩ | ⟨ss, _, he⟩ <;>
                  rw [he] at hv <;> cases hv <;> rfl
            simp only [hlg, List.nil_append]
            exact ih h
      · simp only [hc, not_false_eq_true, reduceIte] at h
        exact absurd h (by simp [errRes])

/-- Every service accepted by the validator loop is pushover or email. -/
theorem validateServices_ok_mem (config : Config) :
    ∀ svcs, (validateServices config svcs).2 = .ok () →
      ∀ s ∈ svcs, s = "pushover" ∨ s = "email" := by
  intro svcs
  induction svcs with
  | nil => intro _ s hs; cases hs
  | cons s rest ih =>
      intro h t ht
      rw [validateServices_cons] at h
      by_cases hc : SERVICES.contains s
      · simp only [hc, not_true_eq_false, reduceIte] at h
        obtain ⟨lg, r, hv⟩ : ∃ lg r, vssFor config s = (lg, r) := ⟨_, _, rfl⟩
        rw [hv] at h
        cases r with
        | error e => exact Except.noConfusion h
        | ok u =>
            cases u
            simp only [List.mem_cons] at ht
            rcases ht with rfl | ht
            · have hmem : t ∈ SERVICES := by simpa using hc
              simp only [SERVICES, List.mem_cons, List.not_mem_nil, or_false] at hmem
              tauto
            · exact ih h t ht
      · simp only [hc, not_false_eq_true, reduceIte] at h
        exact Except.noConfusion h

/-- Failures of the validator loop over services with settings entries are
logged `SendNotificationError`s. -/
theorem validateServices_err (config : Config) :
    ∀ svcs, (∀ s ∈ svcs, (lookupSettings config s).isSome = true) →
      ∀ e, (validateServices config svcs).2 = .error e →
        ∃ m, e = .snError m ∧
          LogEntry.error m [] ∈ (validateServices config svcs).1 := by
  intro svcs
  induction svcs with
  | nil => intro _ e h; exact Except.noConfusion h
  | cons s rest ih =>
      intro hinv e h
      rw [validateServices_cons] at h ⊢
      by_cases hc : SERVICES.contains s
      · simp only [hc, not_true_eq_false, reduceIte] at h ⊢
        have hvss : ∀ req opt lg r,
            validate_service_settings config s req opt = (lg, r) →
            r = .error e →
            ∃ m, e = .snError m ∧ LogEntry.error m [] ∈ lg := by
          intro req opt lg r hv hr
          rcases vss_cases config s req opt with
            ⟨hn, he⟩ | ⟨ss, k, _, _, he⟩ | ⟨ss, k, _, _, _, he⟩ | ⟨ss, _, he⟩ <;>
            rw [he] at hv <;> cases hv
          · have hsome := hinv s (by simp)
            rw [hn] at hsome
            simp at hsome
          · cases hr
            exact ⟨_, rfl, by simp⟩
          · cases hr
            exact ⟨_, rfl, by simp⟩
          · exact Except.noConfusion hr
        obtain ⟨lg, r, hv⟩ : ∃ lg r, vssFor config s = (lg, r) := ⟨_, _, rfl⟩
        rw [hv] at h ⊢
        cases r with
        | error e2 =>
            have h2 : (Except.error e2 : Except PyErr Unit) = Except.error e := h
            have he2 : e = e2 := by
              injection h2 with hx
              exact hx.symm
            subst he2
            show ∃ m, e = PyErr.snError m ∧ LogEntry.error m [] ∈ lg
            unfold vssFor at hv
            by_cases hp : s = "pushover"
            · subst hp
              rw [if_pos rfl] at hv
              exact hvss _ _ _ _ hv rfl
            · rw [if_neg hp] at hv
              exact hvss _ _ _ _ hv rfl
        | ok u =>
            cases u
            obtain ⟨m, hm, hmem⟩ :=
              ih (fun t ht => hinv t (by simp [ht])) e h
            exact ⟨m, hm, by simp [hmem]⟩
      · simp only [hc, not_false_eq_true, reduceIte] at h ⊢
        simp only [errRes] at h ⊢
        cases h
        exact ⟨_, rfl, by simp⟩

/-- A configuration that validates successfully produced no log output. -/
theorem validate_config_ok_log (config : Config)
    (h : (validate_config config).2 = .ok ()) : (validate_config config).1 = [] := by
  unfold validate_config at h ⊢
  cases hs : config.services with
  | none =>
      rw [hs] at h
      exact Except.noConfusion h
  | some svcs =>
      rw [hs] at h
      cases svcs with
      | nil => exact Except.noConfusion h
      | cons s rest => exact validateServices_ok_log config (s :: rest) h

/-- Every service of a configuration that validates successfully is either
pushover or email. -/
theorem validate_ok_services (config : Config) (svcs : List String)
    (hs : config.services = some svcs)
    (hv : (validate_config config).2 = .ok ()) :
    ∀ s ∈ svcs, s = "pushover" ∨ s = "email" := by
  unfold validate_config at hv
  rw [hs] at hv
  cases svcs with
  | nil => exact Except.noConfusion hv
  | cons s rest => exact validateServices_ok_mem config (s :: rest) hv

/-- Failures of the whole configuration validation over configurations whose
listed services all have settings entries are logged
`SendNotificationError`s. -/
theorem validate_config_err (config : Config)
    (hinv : ∀ s ∈ config.services.getD [], (lookupSettings config s).isSome = true) :
    ∀ e, (validate_config config).2 = .error e →
      ∃ m, e = .snError m ∧ LogEntry.error m [] ∈ (validate_config config).1 := by
  intro e h
  unfold validate_config at h ⊢
  cases hs : config.services with
  | none =>
      rw [hs] at h
      simp only [errRes] at h ⊢
      cases h
      exact ⟨_, rfl, by simp⟩
  | some svcs =>
      rw [hs] at h
      cases svcs with
      | nil =>
          simp only [errRes] at h ⊢
          cases h
          exact ⟨_, rfl, by simp⟩
      | cons s rest =>
          refine validateServices_err config (s :: rest) ?_ e h
          intro t ht
          exact hinv t (by rw [hs]; simpa using ht)

/-- `send` after a successful validation: the empty-message check, then the
dispatcher loop. -/
theorem send_eq_of_validate_ok (env : Env) (store : Store) (config : Config)
    (message : String) (interval : Option Nat)
    (hv : (validate_config config).2 = .ok ()) :
    send env store config message interval =
      if pyStrip message = "" then
        ⟨store, (validate_config config).1 ++ [.error "Message can not be empty" []], [],
         .error (.snError "Message can not be empty")⟩
      else
        (if (sendLoop env config (pyStrip message) interval store (config.services.getD [])).success
         then
          ⟨(sendLoop env config (pyStrip message) interval store (config.services.getD [])).store,
           (validate_config config).1 ++
             (sendLoop env config (pyStrip message) interval store (config.services.getD [])).log,
           (sendLoop env config (pyStrip message) interval store (config.services.getD [])).events,
           .ok true⟩
         else
          ⟨(sendLoop env config (pyStrip message) interval store (config.services.getD [])).store,
           (validate_config config).1 ++
             (sendLoop env config (pyStrip message) interval store (config.services.getD [])).log ++
             [.error "No notification could be sent" []],
           (sendLoop env config (pyStrip message) interval store (config.services.getD [])).events,
           .error (.snError "No notification could be sent")⟩) := by
  unfold send
  obtain ⟨lg, r, hvc⟩ : ∃ lg r, validate_config config = (lg, r) := ⟨_, _, rfl⟩
  have hv2 : r = .ok () := by rw [hvc] at hv; exact hv
  subst hv2
  rw [hvc]

/-! ### Claim C4: no enabled services -/

/-- C4: for every configuration with zero enabled services (the services list
is absent or empty), `send` fails with the missing-services error, whatever
the message (and before the message is even inspected). -/
theorem claim_missing_services (env : Env) (store : Store) (config : Config)
    (message : String) (interval : Option Nat)
    (h : config.services = none ∨ config.services = some []) :
    send env store config message interval =
      ⟨store, [.error "Missing services, at least one is needed" []], [],
       .error (.snError "Missing services, at least one is needed")⟩ := by
  have hvc : validate_config config =
      ([.error "Missing services, at least one is needed" []],
       .error (.snError "Missing services, at least one is needed")) := by
    rcases h with h | h <;> simp [validate_config, h, errRes]
  unfold send
  rw [hvc]

/-- C4 witness: a concrete configuration with no services and an empty
message still yields the missing-services error. -/
theorem claim_missing_services_witness :
    send ⟨(200, "ok"), none⟩ ⟨[], []⟩ ⟨none, []⟩ "" none =
      ⟨⟨[], []⟩, [.error "Missing services, at least one is needed" []], [],
       .error (.snError "Missing services, at least one is needed")⟩ :=
  claim_missing_services _ _ _ _ _ (Or.inl rfl)

/-! ### Claim C3: empty message (corrected) -/

/-- C3 counterexample: for the empty message and a configuration with no
services, `send` fails with the missing-services error, not the
empty-message error — configuration validation runs before the message
check, contradicting "before touching the configuration". -/
theorem claim_empty_message_cex :
    (send ⟨(200, "ok"), none⟩ ⟨[], []⟩ ⟨none, []⟩ "" none).result =
      .error (.snError "Missing services, at least one is needed") ∧
    (send ⟨(200, "ok"), none⟩ ⟨[], []⟩ ⟨none, []⟩ "" none).result ≠
      .error (.snError "Message can not be empty") := by
  constructor
  · rfl
  · decide

/-- C3 (amended): for every message that is empty after trimming, provided
configuration validation succeeds, `send` fails with the empty-message error
after validation and before any adapter is invoked: no external event (no
network, SMTP or store call) occurs. -/
theorem claim_empty_message (env : Env) (store : Store) (config : Config)
    (message : String) (interval : Option Nat)
    (hv : (validate_config config).2 = .ok ())
    (hm : pyStrip message = "") :
    send env store config message interval =
      ⟨store, [.error "Message can not be empty" []], [],
       .error (.snError "Message can not be empty")⟩ := by
  rw [send_eq_of_validate_ok env store config message interval hv, if_pos hm,
    validate_config_ok_log config hv]
  rfl

/-- C3 witness: a valid one-service configuration and a whitespace-only
message produce the empty-message error with no external event. -/
theorem claim_empty_message_witness :
    send ⟨(200, "ok"), none⟩ ⟨[], []⟩
        ⟨some ["email"], [("email", [("subject", "Hi"), ("to", "a@b.com")])]⟩ "   " none =
      ⟨⟨[], []⟩, [.error "Message can not be empty" []], [],
       .error (.snError "Message can not be empty")⟩ :=
  claim_empty_message _ _ _ _ _ (by decide) (by decide)

/-! ### Claim C5: missing required setting -/

/-- C5: when a settings entry exists for a service and some required key is
missing or blank after trimming, validation fails with the message naming
that service and the first such key (which is itself missing or blank). -/
theorem claim_missing_setting (config : Config) (service : String)
    (required_settings optional_settings : List String)
    (ss : List (String × String)) (k : String)
    (hss : lookupSettings config service = some ss)
    (hk : List.find? (fun x => missingOrBlank ss x) required_settings = some k) :
    validate_service_settings config service required_settings optional_settings =
      ([.error ("Missing setting for " ++ service ++ " " ++ k) []],
       .error (.snError ("Missing setting for " ++ service ++ " " ++ k))) ∧
    missingOrBlank ss k = true := by
  refine ⟨?_, List.find?_some hk⟩
  simp only [validate_service_settings, hss, hk, errRes]

/-- C5 witness: pushover settings missing `api_key` fail naming service
pushover and setting api_key. -/
theorem claim_missing_setting_witness :
    validate_service_settings ⟨some ["pushover"], [("pushover", [("app_token", "x")])]⟩
        "pushover" ["app_token", "api_key"] ["title"] =
      ([.error "Missing setting for pushover api_key" []],
       .error (.snError "Missing setting for pushover api_key")) := by
  have h := (claim_missing_setting ⟨some ["pushover"], [("pushover", [("app_token", "x")])]⟩
      "pushover" ["app_token", "api_key"] ["title"] [("app_token", "x")] "api_key"
      rfl (by decide)).1
  simpa using h

/-! ### Claim C6: unknown setting (corrected) -/

/-- C6 counterexample: pushover settings containing only the out-of-set key
`bogus` fail with a missing-setting error, not an unknown-setting error: the
required-key check runs first. -/
theorem claim_unknown_setting_cex :
    validate_service_settings ⟨some ["pushover"], [("pushover", [("bogus", "x")])]⟩
        "pushover" ["app_token", "api_key"] ["title"] =
      ([.error "Missing setting for pushover app_token" []],
       .error (.snError "Missing setting for pushover app_token")) ∧
    ("bogus" ∈ ["app_token", "api_key"] ++ ["title"] → False) := by
  constructor
  · rfl
  · decide

/-- C6 (amended): when a settings entry exists, every required key is present
and non-blank, and some settings key lies outside required ∪ optional,
validation fails with the unknown-setting message naming that service and
the first such key (which is itself present and outside the allowed set). -/
theorem claim_unknown_setting (config : Config) (service : String)
    (required_settings optional_settings : List String)
    (ss : List (String × String)) (k : String)
    (hss : lookupSettings config service = some ss)
    (hreq : List.find? (fun x => missingOrBlank ss x) required_settings = none)
    (hk : List.find? (fun x => ! (required_settings ++ optional_settings).contains x)
        (ss.map Prod.fst) = some k) :
    validate_service_settings config service required_settings optional_settings =
      ([.error ("Unknown setting for " ++ service ++ " " ++ k) []],
       .error (.snError ("Unknown setting for " ++ service ++ " " ++ k))) ∧
    (required_settings ++ optional_settings).contains k = false ∧
    k ∈ ss.map Prod.fst := by
  refine ⟨?_, ?_, List.mem_of_find?_eq_some hk⟩
  · simp only [validate_service_settings, hss, hreq, hk, errRes]
  · have h := List.find?_some hk
    simpa using h

/-- C6 witness: complete pushover settings plus the extra key `bogus` fail
naming service pushover and setting bogus. -/
theorem claim_unknown_setting_witness :
    validate_service_settings
        ⟨some ["pushover"],
         [("pushover", [("app_token", "t"), ("api_key", "u"), ("bogus", "x")])]⟩
        "pushover" ["app_token", "api_key"] ["title"] =
      ([.error "Unknown setting for pushover bogus" []],
       .error (.snError "Unknown setting for pushover bogus")) := by
  have h := (claim_unknown_setting
      ⟨some ["pushover"],
       [("pushover", [("app_token", "t"), ("api_key", "u"), ("bogus", "x")])]⟩
      "pushover" ["app_token", "api_key"] ["title"]
      [("app_token", "t"), ("api_key", "u"), ("bogus", "x")] "bogus"
      rfl (by decide) (by decide)).1
  simpa using h

/-! ### Claim C7: interval-key derivation -/

/-- Eight hex digits render every word. -/
theorem toHex8_length (n : Nat) : (toHex8 n).length = 8 := rfl

/-- A SHA-1 hex digest has exactly forty characters, whatever the input. -/
theorem sha1hex_length (s : String) : (sha1hex s).length = 40 := by
  show (hexdigest (sha1Nat (strBytes s))).length = 40
  unfold hexdigest
  simp [String.length_append, toHex8_length]

/-- C7: the dedupe key depends only on the service identifier, the interval
value and the ordered notification field values (two notification dicts with
the same values give the same key); it is the namespace tag, a colon, and
the fixed-length (40 hex character) SHA-1 digest of the concatenation of
service, `str(interval)` and the field values. -/
theorem claim_interval_key (service : String) (n : Nat)
    (ntf ntf2 : List (String × String))
    (hvals : ntf.map Prod.snd = ntf2.map Prod.snd) :
    intervalKey service n ntf = intervalKey service n ntf2 ∧
    intervalKey service n ntf =
      programName ++ ":" ++
        sha1hex (String.join ([service, toString n] ++ ntf.map Prod.snd)) ∧
    (sha1hex (String.join ([service, toString n] ++ ntf.map Prod.snd))).length = 40 := by
  refine ⟨?_, rfl, sha1hex_length _⟩
  unfold intervalKey
  rw [hvals]

/-- C7 witness: two notification dicts with different keys but equal values
in the same order derive the identical, 40-digit, namespaced key. -/
theorem claim_interval_key_witness :
    intervalKey "pushover" 60 [("message", "hi")] =
      intervalKey "pushover" 60 [("body", "hi")] ∧
    intervalKey "pushover" 60 [("message", "hi")] =
      programName ++ ":" ++ sha1hex (String.join ["pushover", "60", "hi"]) ∧
    (sha1hex (String.join ["pushover", "60", "hi"])).length = 40 :=
  claim_interval_key "pushover" 60 [("message", "hi")] [("body", "hi")] rfl

/-! ### Claim C8: pushover response handling -/

/-- C8: when the pushover adapter reaches the HTTP call, a response with any
status other than 200 makes it raise a `SendNotificationError` carrying the
response body (which is also logged at error severity); a 200 response makes
it return success. -/
theorem claim_pushover_non200 (env : Env) (store : Store)
    (app_token api_key message : String) (title : Option String)
    (code : Nat) (text : String)
    (hresp : env.pushoverResp = (code, text)) :
    (code ≠ 200 →
      (send_pushover env store app_token api_key message none title).result =
        .error (.snError text) ∧
      LogEntry.error text [] ∈ (send_pushover env store app_token api_key message none title).log) ∧
    (code = 200 →
      (send_pushover env store app_token api_key message none title).result = .ok true) := by
  unfold send_pushover pushoverPost
  constructor <;> intro h <;>
    by_cases ht : truthy title <;>
    simp [ht, truthyNat, hresp, h]

/-- C8 witness: a concrete 500 response with body "server error" raises the
logged `SendNotificationError` "server error". -/
theorem claim_pushover_non200_witness :
    (send_pushover ⟨(500, "server error"), none⟩ ⟨[], []⟩ "t" "u" "hi" none none).result =
      .error (.snError "server error") ∧
    LogEntry.error "server error" [] ∈
      (send_pushover ⟨(500, "server error"), none⟩ ⟨[], []⟩ "t" "u" "hi" none none).log :=
  (claim_pushover_non200 ⟨(500, "server error"), none⟩ ⟨[], []⟩ "t" "u" "hi" none
    500 "server error" rfl).1 (by decide)

/-! ### Claim C2: the interval guard -/

/-- Redis store accesses among the adapter events. -/
def isRedisEv : Ev → Bool
  | .redisGet _ => true
  | .redisSet _ _ => true
  | .redisExpire _ _ => true
  | _ => false

/-- C2: invoked with a positive interval, the guard returns false and leaves
the store (including the key's expiry) untouched when the key exists; when
the key is absent it stores the sentinel `1` under the key, sets that key's
expiry to the interval in seconds, and returns true.  When the adapters
receive an omitted (`None`) or zero interval they bypass the guard: the
store is untouched, no Redis command is issued, and the send proceeds (the
pushover adapter posts; the email adapter delivers when SMTP is up). -/
theorem claim_interval_guard :
    (∀ (store : Store) (service : String) (n : Nat) (ntf : List (String × String)),
      0 < n →
      ((store.val.lookup (intervalKey service n ntf)).isSome = true →
        check_interval store service n ntf =
          ⟨store,
           [.debug "Notification not sent. Interval has not passed since last notification" []],
           [.redisGet (intervalKey service n ntf)], false⟩) ∧
      ((store.val.lookup (intervalKey service n ntf)).isSome = false →
        check_interval store service n ntf =
          ⟨⟨store.val ++ [(intervalKey service n ntf, 1)],
            if (store.ttl.lookup (intervalKey service n ntf)).isSome then
              store.ttl.map (fun kv =>
                if kv.1 = intervalKey service n ntf then (intervalKey service n ntf, n) else kv)
            else store.ttl ++ [(intervalKey service n ntf, n)]⟩,
           [.debug "Notification interval set to %s sec" [toString n]],
           [.redisGet (intervalKey service n ntf),
            .redisSet (intervalKey service n ntf) 1,
            .redisExpire (intervalKey service n ntf) n], true⟩)) ∧
    (∀ (env : Env) (store : Store) (app_token api_key message : String)
        (title : Option String) (interval : Option Nat),
      truthyNat interval = false →
      (send_pushover env store app_token api_key message interval title).store = store ∧
      (send_pushover env store app_token api_key message interval title).events.all
        (fun e => ! isRedisEv e) = true ∧
      (∃ p, Ev.httpPost pushoverUrl p ∈
        (send_pushover env store app_token api_key message interval title).events)) ∧
    (∀ (env : Env) (store : Store) (subject recipient message : String)
        (sender : Option String) (interval : Option Nat),
      truthyNat interval = false →
      (send_email env store subject recipient message interval sender).store = store ∧
      (send_email env store subject recipient message interval sender).events.all
        (fun e => ! isRedisEv e) = true ∧
      (env.smtpExc = none →
        (send_email env store subject recipient message interval sender).result = .ok true)) := by
  refine ⟨?_, ?_, ?_⟩
  · intro store service n ntf _
    constructor <;> intro h
    · simp only [check_interval, h, reduceIte]
    · simp only [check_interval, h, Bool.false_eq_true, reduceIte]
  · intro env store app_token api_key message title interval hi
    unfold send_pushover pushoverPost
    by_cases ht : truthy title <;>
      by_cases hc : env.pushoverResp.1 ≠ 200 <;>
      simp [ht, hi, hc, isRedisEv]
  · intro env store subject recipient message sender interval hi
    unfold send_email emailSmtp
    cases hs : env.smtpExc <;>
      by_cases ht : truthy sender <;>
      simp [ht, hi, hs, isRedisEv]

/-- C2 witness: with interval 60 and the key present the guard suppresses
and leaves the store unchanged; with the key absent it sets value and expiry
and allows; the pushover adapter with interval `None` issues no Redis
command yet posts. -/
theorem claim_interval_guard_witness :
    check_interval
        ⟨[(intervalKey "pushover" 60 [("message", "hi")], 1)],
         [(intervalKey "pushover" 60 [("message", "hi")], 60)]⟩
        "pushover" 60 [("message", "hi")] =
      ⟨⟨[(intervalKey "pushover" 60 [("message", "hi")], 1)],
        [(intervalKey "pushover" 60 [("message", "hi")], 60)]⟩,
       [.debug "Notification not sent. Interval has not passed since last notification" []],
       [.redisGet (intervalKey "pushover" 60 [("message", "hi")])], false⟩ ∧
    check_interval ⟨[], []⟩ "email" 30 [("message", "hi")] =
      ⟨⟨[(intervalKey "email" 30 [("message", "hi")], 1)],
        [(intervalKey "email" 30 [("message", "hi")], 30)]⟩,
       [.debug "Notification interval set to %s sec" ["30"]],
       [.redisGet (intervalKey "email" 30 [("message", "hi")]),
        .redisSet (intervalKey "email" 30 [("message", "hi")]) 1,
        .redisExpire (intervalKey "email" 30 [("message", "hi")]) 30], true⟩ ∧
    (send_pushover ⟨(200, "ok"), none⟩ ⟨[], []⟩ "t" "u" "hi" none none).events.all
      (fun e => ! isRedisEv e) = true := by
  refine ⟨?_, ?_, ?_⟩
  · exact (claim_interval_guard.1
      ⟨[(intervalKey "pushover" 60 [("message", "hi")], 1)],
       [(intervalKey "pushover" 60 [("message", "hi")], 60)]⟩
      "pushover" 60 [("message", "hi")] (by decide)).1 (by simp [List.lookup])
  · have h := (claim_interval_guard.1 ⟨[], []⟩ "email" 30 [("message", "hi")]
      (by decide)).2 (by simp [List.lookup])
    simpa using h
  · exact ((claim_interval_guard.2.1 ⟨(200, "ok"), none⟩ ⟨[], []⟩ "t" "u" "hi" none none)
      (by decide)).2.1

/-! ### Claim C1: the dispatcher fallback loop -/

/-- Unfolding of the dispatcher loop at a cons cell. -/
theorem sendLoop_cons (env : Env) (config : Config) (message : String)
    (interval : Option Nat) (store : Store) (s : String) (rest : List String) :
    sendLoop env config message interval store (s :: rest) =
      match adapterCall env store config message interval s with
      | none =>
          ⟨(sendLoop env config message interval store rest).store,
           [.debug "Sending with service %s" [s]] ++
             (sendLoop env config message interval store rest).log,
           (sendLoop env config message interval store rest).events,
           (sendLoop env config message interval store rest).success⟩
      | some o =>
          match o.result with
          | .ok _ =>
              ⟨o.store, [.debug "Sending with service %s" [s]] ++ o.log, o.events, true⟩
          | .error e =>
              ⟨(sendLoop env config message interval o.store rest).store,
               [.debug "Sending with service %s" [s]] ++ o.log ++
                 [.error (failTemplate s) [errMsg e]] ++
                 (sendLoop env config message interval o.store rest).log,
               o.events ++ (sendLoop env config message interval o.store rest).events,
               (sendLoop env config message interval o.store rest).success⟩ := rfl

/-- The dispatcher loop over known services either stops at the first
service whose adapter returns normally — having attempted exactly the
failed prefix and that service, logging each failure with the service's
label and the cause — or exhausts the list with every attempt failing and
logged, each service attempted exactly once in order. -/
theorem sendLoop_spec (env : Env) (config : Config) (message : String)
    (interval : Option Nat) :
    ∀ (services : List String) (store : Store),
      (∀ s ∈ services, s = "pushover" ∨ s = "email") →
      ((sendLoop env config message interval store services).success = true ∧
        ∃ pre s post, services = pre ++ s :: post ∧
          attemptedServices (sendLoop env config message interval store services).log =
            pre ++ [s] ∧
          ∀ t ∈ pre, ∃ c,
            LogEntry.error (failTemplate t) [c] ∈
              (sendLoop env config message interval store services).log)
      ∨ ((sendLoop env config message interval store services).success = false ∧
          attemptedServices (sendLoop env config message interval store services).log =
            services ∧
          ∀ t ∈ services, ∃ c,
            LogEntry.error (failTemplate t) [c] ∈
              (sendLoop env config message interval store services).log) := by
  intro services
  induction services with
  | nil =>
      intro store _
      right
      exact ⟨rfl, rfl, fun t ht => absurd ht (List.not_mem_nil t)⟩
  | cons s rest ih =>
      intro store h
      obtain ⟨o, hco, holog⟩ : ∃ o,
          adapterCall env store config message interval s = some o ∧
          attemptedServices o.log = [] := by
        rcases h s (by simp) with rfl | rfl
        · exact ⟨callPushover env store (lookupSettings config "pushover") message interval,
            by simp [adapterCall], attempted_callPushover _ _ _ _ _⟩
        · exact ⟨callEmail env store (lookupSettings config "email") message interval,
            by simp [adapterCall], attempted_callEmail _ _ _ _ _⟩
      rw [sendLoop_cons, hco]
      cases hres : o.result with
      | ok b =>
          simp only [hres]
          left
          refine ⟨trivial, [], s, rest, rfl, ?_,
            fun t ht => absurd ht (List.not_mem_nil t)⟩
          rw [attemptedServices_append, holog]
          simp [attemptedServices]
      | error e =>
          simp only [hres]
          have ihr := ih o.store (fun t ht => h t (List.mem_cons_of_mem _ ht))
          have hattl : attemptedServices
              ([LogEntry.debug "Sending with service %s" [s]] ++ o.log ++
               [LogEntry.error (failTemplate s) [errMsg e]] ++
               (sendLoop env config message interval o.store rest).log) =
              s :: attemptedServices (sendLoop env config message interval o.store rest).log := by
            rw [attemptedServices_append, attemptedServices_append, attemptedServices_append,
              holog, attemptedServices_cons_error]
            simp [attemptedServices]
          rcases ihr with ⟨hsucc, pre, s1, post, hsplit, hatt, hfail⟩ |
            ⟨hsucc, hatt, hfail⟩
          · left
            refine ⟨hsucc, s :: pre, s1, post, by rw [hsplit]; rfl, ?_, ?_⟩
            · show attemptedServices _ = s :: (pre ++ [s1])
              rw [hattl, hatt]
            · intro t ht
              rcases List.mem_cons.mp ht with rfl | ht2
              · exact ⟨errMsg e, by simp⟩
              · obtain ⟨c, hc⟩ := hfail t ht2
                exact ⟨c, by simp [hc]⟩
          · right
            refine ⟨hsucc, ?_, ?_⟩
            · show attemptedServices _ = s :: rest
              rw [hattl, hatt]
            · intro t ht
              rcases List.mem_cons.mp ht with rfl | ht2
              · exact ⟨errMsg e, by simp⟩
              · obtain ⟨c, hc⟩ := hfail t ht2
                exact ⟨c, by simp [hc]⟩

/-- C1: with a validated configuration and a non-empty message, `send`
tries the enabled services one at a time in configured order; an adapter
failure is caught and logged with the service's label and cause and the loop
continues; at the first adapter success it stops (exactly the failed prefix
and the succeeding service were attempted) and `send` returns success; if
every service's adapter fails, each service was attempted exactly once, each
failure was logged, and `send` raises "No notification could be sent". -/
theorem claim_dispatcher_fallback (env : Env) (store : Store) (config : Config)
    (message : String) (interval : Option Nat) (svcs : List String)
    (hs : config.services = some svcs)
    (hv : (validate_config config).2 = .ok ())
    (hm : ¬ pyStrip message = "") :
    ((send env store config message interval).result = .ok true ∧
      ∃ pre s post, svcs = pre ++ s :: post ∧
        attemptedServices (send env store config message interval).log = pre ++ [s] ∧
        ∀ t ∈ pre, ∃ c,
          LogEntry.error (failTemplate t) [c] ∈
            (send env store config message interval).log)
    ∨ ((send env store config message interval).result =
          .error (.snError "No notification could be sent") ∧
        attemptedServices (send env store config message interval).log = svcs ∧
        ∀ t ∈ svcs, ∃ c,
          LogEntry.error (failTemplate t) [c] ∈
            (send env store config message interval).log) := by
  have hmem := validate_ok_services config svcs hs hv
  rw [send_eq_of_validate_ok env store config message interval hv, if_neg hm,
    validate_config_ok_log config hv, hs]
  simp only [Option.getD_some, List.nil_append]
  have hloop := sendLoop_spec env config (pyStrip message) interval svcs store hmem
  rcases hloop with ⟨hsucc, pre, s, post, hsplit, hatt, hfail⟩ | ⟨hsucc, hatt, hfail⟩
  · rw [if_pos hsucc]
    left
    exact ⟨rfl, pre, s, post, hsplit, hatt, hfail⟩
  · rw [if_neg (by simp [hsucc])]
    right
    refine ⟨rfl, ?_, ?_⟩
    · show attemptedServices (_ ++ [LogEntry.error "No notification could be sent" []]) = svcs
      rw [attemptedServices_append, attemptedServices_cons_error, hatt]
      simp [attemptedServices_nil]
    · intro t ht
      obtain ⟨c, hc⟩ := hfail t ht
      exact ⟨c, by simp [hc]⟩

/-- C1 witness: pushover forced to fail with a 500 and email succeeding,
`send` succeeds having attempted exactly pushover then email, with the
pushover failure logged. -/
theorem claim_dispatcher_fallback_witness :
    ((send ⟨(500, "boom"), none⟩ ⟨[], []⟩
        ⟨some ["pushover", "email"],
         [("pushover", [("app_token", "t"), ("api_key", "u")]),
          ("email", [("subject", "Hi"), ("to", "a@b.com")])]⟩ "hi" none).result =
          .ok true ∧
      ∃ pre s post, ["pushover", "email"] = pre ++ s :: post ∧
        attemptedServices (send ⟨(500, "boom"), none⟩ ⟨[], []⟩
          ⟨some ["pushover", "email"],
           [("pushover", [("app_token", "t"), ("api_key", "u")]),
            ("email", [("subject", "Hi"), ("to", "a@b.com")])]⟩ "hi" none).log = pre ++ [s] ∧
        ∀ t ∈ pre, ∃ c,
          LogEntry.error (failTemplate t) [c] ∈
            (send ⟨(500, "boom"), none⟩ ⟨[], []⟩
              ⟨some ["pushover", "email"],
               [("pushover", [("app_token", "t"), ("api_key", "u")]),
                ("email", [("subject", "Hi"), ("to", "a@b.com")])]⟩ "hi" none).log)
    ∨ ((send ⟨(500, "boom"), none⟩ ⟨[], []⟩
          ⟨some ["pushover", "email"],
           [("pushover", [("app_token", "t"), ("api_key", "u")]),
            ("email", [("subject", "Hi"), ("to", "a@b.com")])]⟩ "hi" none).result =
          .error (.snError "No notification could be sent") ∧
        attemptedServices (send ⟨(500, "boom"), none⟩ ⟨[], []⟩
          ⟨some ["pushover", "email"],
           [("pushover", [("app_token", "t"), ("api_key", "u")]),
            ("email", [("subject", "Hi"), ("to", "a@b.com")])]⟩ "hi" none).log =
          ["pushover", "email"] ∧
        ∀ t ∈ ["pushover", "email"], ∃ c,
          LogEntry.error (failTemplate t) [c] ∈
            (send ⟨(500, "boom"), none⟩ ⟨[], []⟩
              ⟨some ["pushover", "email"],
               [("pushover", [("app_token", "t"), ("api_key", "u")]),
                ("email", [("subject", "Hi"), ("to", "a@b.com")])]⟩ "hi" none).log) :=
  claim_dispatcher_fallback _ _ _ _ _ ["pushover", "email"] rfl (by decide) (by decide)

/-! ### Claim C9: send never returns False -/

/-- C9: a normal return of `send` is always `True`: and in particular, when
the interval guard suppresses a duplicate for the first service, the adapter
returns `False` without delivering, yet the dispatcher counts the attempt as
a success — it stops after that one service, performs only the one Redis
read (no HTTP, SMTP, or store write), and `send` still returns `True`. -/
theorem claim_send_returns_true :
    (∀ (env : Env) (store : Store) (config : Config) (message : String)
        (interval : Option Nat) (b : Bool),
      (send env store config message interval).result = .ok b → b = true) ∧
    (∀ (env : Env) (store : Store) (config : Config) (message : String)
        (n : Nat) (rest : List String) (app_token api_key : String),
      config.services = some ("pushover" :: rest) →
      lookupSettings config "pushover" =
        some [("app_token", app_token), ("api_key", api_key)] →
      (validate_config config).2 = .ok () →
      ¬ pyStrip message = "" →
      0 < n →
      (store.val.lookup (intervalKey "pushover" n
          [("app_token", app_token), ("api_key", api_key),
           ("message", pyStrip message)])).isSome = true →
      (send env store config message (some n)).result = .ok true ∧
      attemptedServices (send env store config message (some n)).log = ["pushover"] ∧
      (send env store config message (some n)).events =
        [.redisGet (intervalKey "pushover" n
          [("app_token", app_token), ("api_key", api_key),
           ("message", pyStrip message)])]) := by
  constructor
  · intro env store config message interval b h
    obtain ⟨lg, r, hvc⟩ : ∃ lg r, validate_config config = (lg, r) := ⟨_, _, rfl⟩
    cases r with
    | error e =>
        have hres : (send env store config message interval).result = .error e := by
          unfold send
          rw [hvc]
        rw [hres] at h
        exact Except.noConfusion h
    | ok u =>
        cases u
        have hv2 : (validate_config config).2 = .ok () := by rw [hvc]
        rw [send_eq_of_validate_ok env store config message interval hv2] at h
        by_cases hm : pyStrip message = ""
        · rw [if_pos hm] at h
          exact Except.noConfusion h
        · rw [if_neg hm] at h
          by_cases hl : (sendLoop env config (pyStrip message) interval store
              (config.services.getD [])).success = true
          · rw [if_pos hl] at h
            have h2 : (Except.ok true : Except PyErr Bool) = .ok b := h
            injection h2 with h3
            exact h3.symm
          · rw [if_neg hl] at h
            exact Except.noConfusion h
  · intro env store config message n rest app_token api_key hs hlook hv hm hn hkey
    have hnz : truthyNat (some n) = true := by
      simp only [truthyNat, ne_eq, decide_not]
      simp [Nat.pos_iff_ne_zero.mp hn]
    have hguard : check_interval store "pushover" n
        [("app_token", app_token), ("api_key", api_key),
         ("message", pyStrip message)] =
        ⟨store,
         [.debug "Notification not sent. Interval has not passed since last notification" []],
         [.redisGet (intervalKey "pushover" n
            [("app_token", app_token), ("api_key", api_key),
             ("message", pyStrip message)])], false⟩ := by
      simp only [check_interval, hkey, reduceIte]
    have hadapter : callPushover env store (lookupSettings config "pushover")
        (pyStrip message) (some n) =
        ⟨store,
         [.debug "Pushover sending notification %s"
            [toString [("app_token", app_token), ("api_key", api_key),
                       ("message", pyStrip message)]],
          .debug "Notification not sent. Interval has not passed since last notification" []],
         [.redisGet (intervalKey "pushover" n
            [("app_token", app_token), ("api_key", api_key),
             ("message", pyStrip message)])], .ok false⟩ := by
      have hl0 : List.lookup "app_token"
          [("app_token", app_token), ("api_key", api_key)] = some app_token := rfl
      have hl1 : List.lookup "api_key"
          [("app_token", app_token), ("api_key", api_key)] = some api_key := rfl
      have hl3 : List.lookup "title"
          [("app_token", app_token), ("api_key", api_key)] = none := rfl
      have hsp : send_pushover env store app_token api_key (pyStrip message)
          (some n) none =
          ⟨store,
           [.debug "Pushover sending notification %s"
              [toString [("app_token", app_token), ("api_key", api_key),
                         ("message", pyStrip message)]],
            .debug "Notification not sent. Interval has not passed since last notification" []],
           [.redisGet (intervalKey "pushover" n
              [("app_token", app_token), ("api_key", api_key),
               ("message", pyStrip message)])], .ok false⟩ := by
        simp [send_pushover, truthy, truthyNat, Nat.pos_iff_ne_zero.mp hn, hguard]
      simp only [callPushover, hlook, hl0, hl1, hl3, hsp]
    have hco : adapterCall env store config (pyStrip message) (some n) "pushover" =
        some (callPushover env store (lookupSettings config "pushover")
          (pyStrip message) (some n)) := by
      simp [adapterCall]
    rw [send_eq_of_validate_ok env store config message (some n) hv, if_neg hm,
      validate_config_ok_log config hv, hs]
    simp only [Option.getD_some, List.nil_append, sendLoop_cons, hco, hadapter]
    refine ⟨rfl, ?_, rfl⟩
    simp [attemptedServices]

/-- C9 witness: a one-service pushover configuration whose dedupe key is
already in the store: the adapter is suppressed, nothing is delivered (only
the one Redis read happens) and `send` still returns `True`. -/
theorem claim_send_returns_true_witness :
    (send ⟨(200, "ok"), none⟩
        ⟨[(intervalKey "pushover" 60
            [("app_token", "t"), ("api_key", "u"), ("message", "hi")], 1)], []⟩
        ⟨some ["pushover"], [("pushover", [("app_token", "t"), ("api_key", "u")])]⟩
        "hi" (some 60)).result = .ok true ∧
    attemptedServices (send ⟨(200, "ok"), none⟩
        ⟨[(intervalKey "pushover" 60
            [("app_token", "t"), ("api_key", "u"), ("message", "hi")], 1)], []⟩
        ⟨some ["pushover"], [("pushover", [("app_token", "t"), ("api_key", "u")])]⟩
        "hi" (some 60)).log = ["pushover"] ∧
    (send ⟨(200, "ok"), none⟩
        ⟨[(intervalKey "pushover" 60
            [("app_token", "t"), ("api_key", "u"), ("message", "hi")], 1)], []⟩
        ⟨some ["pushover"], [("pushover", [("app_token", "t"), ("api_key", "u")])]⟩
        "hi" (some 60)).events =
      [.redisGet (intervalKey "pushover" 60
        [("app_token", "t"), ("api_key", "u"), ("message", "hi")])] := by
  have h := claim_send_returns_true.2 ⟨(200, "ok"), none⟩
    ⟨[(intervalKey "pushover" 60
        [("app_token", "t"), ("api_key", "u"), ("message", "hi")], 1)], []⟩
    ⟨some ["pushover"], [("pushover", [("app_token", "t"), ("api_key", "u")])]⟩
    "hi" 60 [] "t" "u" rfl rfl (by decide) (by decide) (by decide)
    (by rw [show pyStrip "hi" = "hi" from rfl]
        simp [List.lookup])
  exact h

/-! ### Claim C10: the single error path (corrected) -/

/-- C10 counterexample: a readable, well-formed JSON config file whose
document lacks the `"services"` key makes `read_config_file` surface a bare
`KeyError` — a different exception type than `SendNotificationError` — with
nothing logged, so not every failure goes through the logging error path. -/
theorem claim_single_error_path_cex :
    read_config_file "config" (.parsed ⟨none⟩) = ([], .error (.keyError "services")) ∧
    (∀ m, PyErr.keyError "services" ≠ PyErr.snError m) :=
  ⟨rfl, fun _ h => PyErr.noConfusion h⟩

/-- C10 (amended): every failure the module itself raises — config open or
parse failure, validation failure, empty message, all-services-failed — goes
through the single error path: the message is logged at error severity and a
`SendNotificationError` carrying it is raised; the one exception is a parsed
config document lacking the `"services"` key, which surfaces an unlogged
`KeyError`.  For `send` the guarantee holds for every configuration whose
listed services have settings entries. -/
theorem claim_single_error_path :
    (∀ (path : String) (outcome : ReadOutcome) (lg : List LogEntry) (e : PyErr),
      outcome ≠ .parsed ⟨none⟩ →
      read_config_file path outcome = (lg, .error e) →
      ∃ m, e = .snError m ∧ LogEntry.error m [] ∈ lg) ∧
    (∀ (env : Env) (store : Store) (config : Config) (message : String)
        (interval : Option Nat),
      (∀ s ∈ config.services.getD [], (lookupSettings config s).isSome = true) →
      ∀ e, (send env store config message interval).result = .error e →
        ∃ m, e = .snError m ∧
          LogEntry.error m [] ∈ (send env store config message interval).log) ∧
    (∀ (env : Env) (store : Store) (app_token api_key message : String)
        (interval : Option Nat) (title : Option String) (e : PyErr),
      (send_pushover env store app_token api_key message interval title).result =
        .error e →
      ∃ m, e = .snError m ∧
        LogEntry.error m [] ∈
          (send_pushover env store app_token api_key message interval title).log) := by
  refine ⟨?_, ?_, ?_⟩
  · intro path outcome lg e hne hread
    cases outcome with
    | ioError =>
        refine ⟨"Unable to open JSON config file " ++ path, ?_, ?_⟩
        · have h2 : (Except.error (PyErr.snError
              ("Unable to open JSON config file " ++ path)) : Except PyErr Config) =
              .error e := congrArg Prod.snd hread
          injection h2 with h3
          exact h3.symm
        · have h1 : ([LogEntry.error ("Unable to open JSON config file " ++ path) []] :
              List LogEntry) = lg := congrArg Prod.fst hread
          rw [← h1]
          simp
    | parseError =>
        refine ⟨"Invalid JSON config file", ?_, ?_⟩
        · have h2 : (Except.error (PyErr.snError "Invalid JSON config file") :
              Except PyErr Config) = .error e := congrArg Prod.snd hread
          injection h2 with h3
          exact h3.symm
        · have h1 : ([LogEntry.error "Invalid JSON config file" []] :
              List LogEntry) = lg := congrArg Prod.fst hread
          rw [← h1]
          simp
    | parsed j =>
        cases j with
        | mk services =>
            cases services with
            | none => exact absurd rfl hne
            | some svcs =>
                have h2 : (Except.ok (⟨some (svcs.map (fun s => s.title)),
                    svcs.map (fun s => (s.title, s.settings))⟩ : Config) :
                    Except PyErr Config) = .error e := congrArg Prod.snd hread
                exact Except.noConfusion h2
  · intro env store config message interval hinv e hres
    obtain ⟨lg, r, hvc⟩ : ∃ lg r, validate_config config = (lg, r) := ⟨_, _, rfl⟩
    cases r with
    | error e0 =>
        have hsend : send env store config message interval =
            ⟨store, lg, [], .error e0⟩ := by
          unfold send
          rw [hvc]
        rw [hsend] at hres ⊢
        have h2 : (Except.error e0 : Except PyErr Bool) = .error e := hres
        injection h2 with h3
        subst h3
        obtain ⟨m, hm, hmem⟩ := validate_config_err config hinv e0 (by rw [hvc])
        rw [hvc] at hmem
        exact ⟨m, hm, hmem⟩
    | ok u =>
        cases u
        have hv2 : (validate_config config).2 = .ok () := by rw [hvc]
        rw [send_eq_of_validate_ok env store config message interval hv2] at hres ⊢
        by_cases hm0 : pyStrip message = ""
        · rw [if_pos hm0] at hres ⊢
          have h2 : (Except.error (PyErr.snError "Message can not be empty") :
              Except PyErr Bool) = .error e := hres
          injection h2 with h3
          exact ⟨"Message can not be empty", h3.symm, by simp⟩
        · rw [if_neg hm0] at hres ⊢
          by_cases hl : (sendLoop env config (pyStrip message) interval store
              (config.services.getD [])).success = true
          · rw [if_pos hl] at hres
            exact Except.noConfusion hres
          · rw [if_neg hl] at hres ⊢
            have h2 : (Except.error (PyErr.snError "No notification could be sent") :
                Except PyErr Bool) = .error e := hres
            injection h2 with h3
            exact ⟨"No notification could be sent", h3.symm, by simp⟩
  · intro env store app_token api_key message interval title e hres
    have hpost : ∀ (st : Store) (lg : List LogEntry) (evs : List Ev)
        (ntf : List (String × String)),
        (pushoverPost env st lg evs ntf app_token api_key).result = .error e →
        ∃ m, e = .snError m ∧
          LogEntry.error m [] ∈ (pushoverPost env st lg evs ntf app_token api_key).log := by
      intro st lg evs ntf hr
      by_cases hc : env.pushoverResp.1 ≠ 200
      · rw [pushoverPost_log]
        have h2 : (Except.error (PyErr.snError env.pushoverResp.2) :
            Except PyErr Bool) = .error e := by
          rw [← hr]
          simp [pushoverPost, hc]
        injection h2 with h3
        exact ⟨env.pushoverResp.2, h3.symm, by simp [hc]⟩
      · have h2 : (Except.ok true : Except PyErr Bool) = .error e := by
          rw [← hr]
          simp [pushoverPost, hc]
        exact Except.noConfusion h2
    unfold send_pushover at hres ⊢
    by_cases ht : truthy title <;> simp only [ht, Bool.false_eq_true, reduceIte] at hres ⊢ <;>
      by_cases hi : truthyNat interval <;>
      simp only [hi, Bool.false_eq_true, reduceIte] at hres ⊢
    all_goals
      first
        | exact hpost _ _ _ _ hres
        | (rw [apply_ite Outcome.result] at hres
           rw [apply_ite Outcome.log]
           split at hres
           · rw [if_pos (by assumption)]
             exact hpost _ _ _ _ hres
           · exact Except.noConfusion hres)

/-- C10 witness: a malformed JSON config file is surfaced as the logged
`SendNotificationError` "Invalid JSON config file". -/
theorem claim_single_error_path_witness :
    ∃ m, PyErr.snError "Invalid JSON config file" = PyErr.snError m ∧
      LogEntry.error m [] ∈ [LogEntry.error "Invalid JSON config file" []] :=
  claim_single_error_path.1 "config" .parseError
    [LogEntry.error "Invalid JSON config file" []]
    (.snError "Invalid JSON config file") (by decide) rfl

end SendNotification
